import Mathlib

/-!
Shallow embedding of `src/ArticleGenerator1.py`, a Streamlit app that loads a
prompt configuration from a JSON file, lets the user edit it, and on a button
press probes an Azure OpenAI endpoint and runs a three-agent crew pipeline on
an uploaded transcript.  External effects (file system, HTTP probe,
orchestration engine) are modelled as explicit state / outcome parameters; the
app's own logic (config load/save, truthiness-based defaulting, handler
control flow, agent and task construction, error branches) is translated
directly from the source.
-/

set_option autoImplicit false

namespace ArticleGenerator

/-- JSON documents, as produced by Python's `json` module.  Objects keep key
order, mirroring a Python `dict`. -/
inductive Json where
  | str (s : String)
  | num (n : Int)
  | bool (b : Bool)
  | null
  | arr (elems : List Json)
  | obj (fields : List (String × Json))

/-- Python truthiness (`bool(x)`) of a JSON value: empty containers, empty
strings, `0`, `false` and `null` are falsy. -/
def Json.truthy : Json → Bool
  | .str s => !s.isEmpty
  | .num n => decide (n ≠ 0)
  | .bool b => b
  | .null => false
  | .arr l => !l.isEmpty
  | .obj l => !l.isEmpty

/-- Python's `a or b`: `a` if truthy, else `b`. -/
def pyOr (a b : Json) : Json := if a.truthy then a else b

/-- Python exceptions the embedded fragments can raise. -/
inductive PyError where
  | jsonDecodeError
  | unicodeDecodeError
  | keyError (key : String)
  | typeError
  | attributeError
  deriving DecidableEq

/-- State of the persisted file at the fixed path `agent_task_config.json`:
missing, present with content `json.load` rejects, or present with a parsed
document.  (JSON file I/O mechanics are external to the program.) -/
inductive FileState where
  | absent
  | corrupt (raw : String)
  | stores (doc : Json)

/-- Lines 14-19: open the fixed path and `json.load` it; only
`FileNotFoundError` is caught (returning `{}`); a decode error on corrupt
content propagates. -/
def load_config : FileState → Except PyError Json
  | .absent => .ok (.obj [])
  | .corrupt _ => .error .jsonDecodeError
  | .stores doc => .ok doc

/-- Lines 21-23: `json.dump` the whole document to the fixed path, replacing
whatever was there. -/
def save_config (config : Json) (_prior : FileState) : FileState := .stores config

/-- The hardcoded default prompt set, lines 53-62. -/
def defaultPrompts : Json := .obj
  [ ("planner", .obj
      [ ("role", .str "Content Planner")
      , ("goal", .str "Plan engaging and factually accurate content on the given topic")
      , ("backstory", .str "You\x27re working on planning a research report about a given topic.") ])
  , ("writer", .obj
      [ ("role", .str "Content Writer")
      , ("goal", .str "Write insightful and factually accurate research report")
      , ("backstory", .str "You\x27re working on writing a new opinion piece about a given topic.") ])
  , ("editor", .obj
      [ ("role", .str "Editor")
      , ("goal", .str "Edit a given blog post")
      , ("backstory", .str "You are an editor who receives a research article from the Content Writer.") ])
  , ("tasks", .obj
      [ ("plan", .str "Plan content for the topic")
      , ("write", .str "Write a research article based on the content plan")
      , ("edit", .str "Edit and finalize the research article") ]) ]

/-- Line 53: `st.session_state['prompts'] = config or { ...defaults... }`. -/
def initPrompts (config : Json) : Json := pyOr config defaultPrompts

/-- Startup: `config = load_config()` (line 26) followed by the session-state
initialization (lines 52-62).  An error from `load_config` propagates and the
session prompts are never set. -/
def sessionInit (fs : FileState) : Except PyError Json := do
  let config ← load_config fs
  pure (initPrompts config)

/-- Python `d[k]` on a JSON value: key lookup on an object (raising `KeyError`
when missing), `TypeError` when indexing a non-object with a string key. -/
def Json.get : Json → String → Except PyError Json
  | .obj fields, k =>
      match fields.lookup k with
      | some v => .ok v
      | none => .error (.keyError k)
  | _, _ => .error .typeError

/-- `d[k]` where the program consumes the result as a string. -/
def Json.getStr (j : Json) (k : String) : Except PyError String := do
  match ← j.get k with
  | .str s => pure s
  | _ => .error .typeError

/-- Whether a JSON value is an object carrying key `k`. -/
def Json.hasKey (j : Json) (k : String) : Bool :=
  match j with
  | .obj fields => (fields.lookup k).isSome
  | _ => false

/-- A UTF-8 continuation byte (`10xxxxxx`). -/
def isCont (b : Nat) : Bool := 0x80 ≤ b && b < 0xC0

/-- UTF-8 decoding of a byte list into code points, rejecting stray or missing
continuation bytes, overlong encodings, surrogates and values above
`0x10FFFF` (Python's strict `bytes.decode("utf-8")`). -/
def utf8Decode : List Nat → Option (List Nat)
  | [] => some []
  | b0 :: rest =>
    if b0 < 0x80 then (utf8Decode rest).map (b0 :: ·)
    else if b0 < 0xC2 then none
    else if b0 < 0xE0 then
      match rest with
      | b1 :: rest2 =>
        if isCont b1 then
          (utf8Decode rest2).map (((b0 - 0xC0) * 0x40 + (b1 - 0x80)) :: ·)
        else none
      | [] => none
    else if b0 < 0xF0 then
      match rest with
      | b1 :: b2 :: rest3 =>
        if isCont b1 && isCont b2 then
          let cp := (b0 - 0xE0) * 0x1000 + (b1 - 0x80) * 0x40 + (b2 - 0x80)
          if cp < 0x800 then none
          else if 0xD800 ≤ cp && cp < 0xE000 then none
          else (utf8Decode rest3).map (cp :: ·)
        else none
      | _ => none
    else if b0 < 0xF5 then
      match rest with
      | b1 :: b2 :: b3 :: rest4 =>
        if isCont b1 && isCont b2 && isCont b3 then
          let cp := (b0 - 0xF0) * 0x40000 + (b1 - 0x80) * 0x1000
                      + (b2 - 0x80) * 0x40 + (b3 - 0x80)
          if cp < 0x10000 || 0x10FFFF < cp then none
          else (utf8Decode rest4).map (cp :: ·)
        else none
      | _ => none
    else none

/-- Line 88: `uploaded_file.read().decode("utf-8")`; `none` models an
uncaught `UnicodeDecodeError`. -/
def decodeUtf8 (bytes : List Nat) : Option String :=
  (utf8Decode bytes).map fun cps => String.mk (cps.map Char.ofNat)

/-- An agent descriptor as constructed by `Agent(...)`, lines 107-132.  Only
the fields the program passes are modelled; the temperature is the slider
value, carried through unchanged. -/
structure Agent where
  role : String
  goal : String
  backstory : String
  allow_delegation : Bool
  verbose : Bool
  temperature : ℚ
  deriving DecidableEq

/-- A task descriptor as constructed by `Task(...)`, lines 135-148. -/
structure Task where
  description : String
  agent : Agent
  deriving DecidableEq

/-- The crew submitted to the orchestration engine, lines 151-155. -/
structure Crew where
  agents : List Agent
  tasks : List Task
  verbose : Bool
  deriving DecidableEq

/-- One `Agent(role=prompts[name]['role'], goal=..., backstory=...,
allow_delegation=False, verbose=True, temperature=temperature)` block; the
three blocks at lines 107-132 differ only in `name`.  Dictionary lookups are
performed in the source's argument order and raise into the surrounding
`try`. -/
def buildAgent (prompts : Json) (name : String) (temperature : ℚ) :
    Except PyError Agent := do
  let record ← prompts.get name
  let role ← record.getStr "role"
  let goal ← record.getStr "goal"
  let backstory ← record.getStr "backstory"
  pure { role := role, goal := goal, backstory := backstory,
         allow_delegation := false, verbose := true, temperature := temperature }

/-- Lines 107-155: build the three agents, the three tasks (the plan task's
description is the f-string `f"{tasks['plan']}: {transcripts}"`), and the
crew. -/
def buildCrewFromSession (prompts : Json) (transcripts : String)
    (temperature : ℚ) : Except PyError Crew := do
  let planner ← buildAgent prompts "planner" temperature
  let writer ← buildAgent prompts "writer" temperature
  let editor ← buildAgent prompts "editor" temperature
  let tasksDict ← prompts.get "tasks"
  let planText ← tasksDict.getStr "plan"
  let plan : Task := { description := planText ++ ": " ++ transcripts, agent := planner }
  let writeText ← tasksDict.getStr "write"
  let write : Task := { description := writeText, agent := writer }
  let editText ← tasksDict.getStr "edit"
  let edit : Task := { description := editText, agent := editor }
  pure { agents := [planner, writer, editor], tasks := [plan, write, edit], verbose := true }

/-- An HTTP response, as far as the error reporting at lines 167-169 reads
it (`status_code` and `text`). -/
structure HttpResponse where
  status : Nat
  body : String
  deriving DecidableEq

/-- Outcome of the connectivity probe, lines 92-103: `requests.post` followed
by `raise_for_status()`.  A failure is a `requests.exceptions.RequestException`
whose `response` attribute may be missing (connection-level failures carry no
HTTP response). -/
inductive ProbeOutcome where
  | success
  | reqError (msg : String) (response : Option HttpResponse)
  deriving DecidableEq

/-- Outcome of `crew.kickoff()` (line 159): a final artifact, or an
exception with message and formatted traceback. -/
inductive EngineOutcome where
  | returns (artifact : String)
  | raises (msg : String) (trace : String)
  deriving DecidableEq

/-- User-visible output events (`st.error` / `st.success` / `st.markdown`). -/
inductive UiEvent where
  | errorMsg (text : String)
  | successMsg (text : String)
  | markdown (text : String)
  deriving DecidableEq

/-- Outbound network interactions the handler can issue. -/
inductive NetCall where
  | probe
  | kickoff
  deriving DecidableEq

/-- Observable result of one press of the generate button: UI events in
order, outbound calls in order, the persisted file afterwards, and any
exception that escaped the handler uncaught. -/
structure HandlerResult where
  events : List UiEvent
  netCalls : List NetCall
  fileState : FileState
  uncaught : Option PyError

/-- Rendering of an exception by `str(e)` in the `except` blocks; the exact
text is irrelevant to every claim, only which branch emits it. -/
def pyErrorStr : PyError → String
  | .jsonDecodeError => "Expecting value"
  | .unicodeDecodeError => "invalid start byte"
  | .keyError k => "\x27" ++ k ++ "\x27"
  | .typeError => "string indices must be integers"
  | .attributeError => "\x27NoneType\x27 object has no attribute \x27status_code\x27"

/-- Lines 165-169: the `requests.exceptions.RequestException` branch, as a
pair of the events it displays and the exception (if any) it raises itself.
`requests` 2.x always sets the exception's `response` attribute — to `None`
for connection-level failures — so the `hasattr(e, 'response')` guard at
line 167 is always true.  With a response present, its status code and body
are echoed and the handler finishes; with `response` equal to `None`,
evaluating `e.response.status_code` at line 168 raises an `AttributeError`
inside the `except` block, which the sibling `except Exception` branch of
the same `try` does not catch, so it escapes the handler after only the
API-error message was shown. -/
def reqErrorReport (msg : String) (response : Option HttpResponse) :
    List UiEvent × Option PyError :=
  ( .errorMsg ("API Error: " ++ msg) ::
      match response with
      | some r => [ .errorMsg ("Response Status Code: " ++ toString r.status)
                  , .errorMsg ("Response Content: " ++ r.body) ]
      | none => []
  , match response with
    | some _ => none
    | none => some .attributeError )

/-- Lines 84-172: the "Generate Research Article" button handler.  `uploaded`
is the file's raw bytes (`none`: no file chosen); `prompts` is
`st.session_state['prompts']`; `probe` and `engine` are the outcomes of the
two external calls; `fs` is the persisted config file.  The UTF-8 decode at
line 88 happens before the `try` at line 90, so its failure is caught by
neither `except` branch. -/
def generateHandler (uploaded : Option (List Nat)) (prompts : Json)
    (temperature : ℚ) (probe : ProbeOutcome) (engine : Crew → EngineOutcome)
    (fs : FileState) : HandlerResult :=
  match uploaded with
  | none =>
    { events := [.errorMsg "Please upload a transcript file."],
      netCalls := [], fileState := fs, uncaught := none }
  | some bytes =>
    match decodeUtf8 bytes with
    | none =>
      { events := [], netCalls := [], fileState := fs,
        uncaught := some .unicodeDecodeError }
    | some transcripts =>
      match probe with
      | .reqError msg response =>
        { events := (reqErrorReport msg response).1, netCalls := [.probe],
          fileState := fs, uncaught := (reqErrorReport msg response).2 }
      | .success =>
        match buildCrewFromSession prompts transcripts temperature with
        | .error e =>
          { events := [ .successMsg "API connection successful!"
                      , .errorMsg ("An error occurred: " ++ pyErrorStr e)
                      , .errorMsg ("Traceback: " ++ pyErrorStr e) ],
            netCalls := [.probe], fileState := fs, uncaught := none }
        | .ok crew =>
          match engine crew with
          | .raises msg trace =>
            { events := [ .successMsg "API connection successful!"
                        , .errorMsg ("An error occurred: " ++ msg)
                        , .errorMsg ("Traceback: " ++ trace) ],
              netCalls := [.probe, .kickoff], fileState := fs, uncaught := none }
          | .returns artifact =>
            { events := [ .successMsg "API connection successful!"
                        , .successMsg "Research article generated successfully!"
                        , .markdown artifact ],
              netCalls := [.probe, .kickoff], fileState := fs, uncaught := none }

/-- Lines 79-81: the "Save Configuration" button handler — the only call
site of `save_config`. -/
def saveConfigAction (prompts : Json) (fs : FileState) :
    FileState × List UiEvent :=
  (save_config prompts fs, [.successMsg "Configuration saved successfully!"])

/-- One role's prompt fields. -/
structure RoleRecord where
  role : String
  goal : String
  backstory : String
  deriving DecidableEq

/-- The three task description texts. -/
structure TaskTexts where
  plan : String
  write : String
  edit : String
  deriving DecidableEq

/-- A well-formed prompt set, structured: the three role records plus the
task texts. -/
structure PromptSetR where
  planner : RoleRecord
  writer : RoleRecord
  editor : RoleRecord
  tasks : TaskTexts
  deriving DecidableEq

/-- JSON encoding of one role record, in the field order the program uses. -/
def roleJson (r : RoleRecord) : Json :=
  .obj [("role", .str r.role), ("goal", .str r.goal), ("backstory", .str r.backstory)]

/-- JSON document of a structured prompt set, with the four keys in the order
the defaults use. -/
def jsonOfPromptSet (P : PromptSetR) : Json :=
  .obj [ ("planner", roleJson P.planner)
       , ("writer", roleJson P.writer)
       , ("editor", roleJson P.editor)
       , ("tasks", .obj [ ("plan", .str P.tasks.plan)
                        , ("write", .str P.tasks.write)
                        , ("edit", .str P.tasks.edit) ]) ]

/-- A JSON document is a well-formed prompt set when it is the encoding of
some structured prompt set. -/
def wellFormedPromptSet (j : Json) : Prop := ∃ P, j = jsonOfPromptSet P

/-- The hardcoded defaults of lines 53-62, structured. -/
def defaultPromptSetR : PromptSetR :=
  { planner :=
      { role := "Content Planner"
      , goal := "Plan engaging and factually accurate content on the given topic"
      , backstory := "You\x27re working on planning a research report about a given topic." }
  , writer :=
      { role := "Content Writer"
      , goal := "Write insightful and factually accurate research report"
      , backstory := "You\x27re working on writing a new opinion piece about a given topic." }
  , editor :=
      { role := "Editor"
      , goal := "Edit a given blog post"
      , backstory := "You are an editor who receives a research article from the Content Writer." }
  , tasks :=
      { plan := "Plan content for the topic"
      , write := "Write a research article based on the content plan"
      , edit := "Edit and finalize the research article" } }

theorem defaultPrompts_eq_encoded :
    defaultPrompts = jsonOfPromptSet defaultPromptSetR := rfl

/-- Whether an event list contains an error message echoing an HTTP status
code, i.e. one starting with the line-168 prefix. -/
def statusCodeReported (events : List UiEvent) : Bool :=
  events.any fun e =>
    match e with
    | .errorMsg m => m.data.take 21 == "Response Status Code:".data
    | _ => false

/-- The plan task's description of a built crew, when construction
succeeded. -/
def planDescOf (r : Except PyError Crew) : Option String :=
  match r with
  | .ok c => c.tasks.head?.map Task.description
  | .error _ => none

/-- Claim C1: with no uploaded transcript the handler emits exactly the
missing-input error, issues no outbound network call (neither the
connectivity probe nor the engine), leaves the persisted file unchanged and
raises nothing. -/
theorem generate_without_transcript (prompts : Json) (t : ℚ)
    (probe : ProbeOutcome) (engine : Crew → EngineOutcome) (fs : FileState) :
    generateHandler none prompts t probe engine fs =
      { events := [.errorMsg "Please upload a transcript file."],
        netCalls := [], fileState := fs, uncaught := none } := rfl

/-- Claim C2: with no config file, `load_config` returns the empty mapping
without raising, and the session prompt set is exactly the hardcoded
default. -/
theorem load_config_missing_file_defaults :
    load_config .absent = .ok (.obj []) ∧
    sessionInit .absent = .ok defaultPrompts :=
  ⟨rfl, rfl⟩

/-- Claim C3: saving a well-formed prompt set overwrites whatever the file
held before, and loading afterwards returns the identical document. -/
theorem save_load_roundtrip (p : Json) (fs : FileState)
    (_h : wellFormedPromptSet p) :
    save_config p fs = .stores p ∧
    load_config (save_config p fs) = .ok p :=
  ⟨rfl, rfl⟩

/-- Witness for C3 at the default prompt set over a previously corrupt
file. -/
theorem save_load_roundtrip_witness :
    wellFormedPromptSet defaultPrompts ∧
    (save_config defaultPrompts (.corrupt "junk") = .stores defaultPrompts ∧
     load_config (save_config defaultPrompts (.corrupt "junk")) = .ok defaultPrompts) :=
  ⟨⟨defaultPromptSetR, rfl⟩,
    save_load_roundtrip defaultPrompts (.corrupt "junk") ⟨defaultPromptSetR, rfl⟩⟩

/-- Counterexample to C6: on a file whose content is not valid JSON,
`load_config` does propagate an error (only `FileNotFoundError` is caught at
line 18), and startup initialization fails rather than falling back to the
defaults. -/
theorem load_config_corrupt_raises :
    load_config (.corrupt "not-json") = .error .jsonDecodeError ∧
    sessionInit (.corrupt "not-json") = .error .jsonDecodeError :=
  ⟨rfl, rfl⟩

/-- Claim C6 as amended: the silent fallback to the empty mapping (and hence
to the default prompt set) happens only when the file is missing; corrupt
content raises a JSON decode error that propagates to the caller. -/
theorem load_config_fallback_only_when_missing :
    (load_config .absent = .ok (.obj []) ∧
     sessionInit .absent = .ok defaultPrompts) ∧
    ∀ raw, load_config (.corrupt raw) = .error .jsonDecodeError :=
  ⟨⟨rfl, rfl⟩, fun _ => rfl⟩

/-- Claim C10: when the uploaded bytes are not valid UTF-8, the decode at
line 88 fails before the `try` block at line 90, so the error escapes both
`except` branches: nothing is displayed, no network call is made, and the
exception propagates uncaught. -/
theorem invalid_utf8_escapes_handler (bytes : List Nat) (prompts : Json)
    (t : ℚ) (probe : ProbeOutcome) (engine : Crew → EngineOutcome)
    (fs : FileState) (h : decodeUtf8 bytes = none) :
    generateHandler (some bytes) prompts t probe engine fs =
      { events := [], netCalls := [], fileState := fs,
        uncaught := some .unicodeDecodeError } := by
  simp [generateHandler, h]

/-- Counterexample to C5: a non-empty persisted document missing the
`tasks` key is used verbatim as the session prompt set — nothing is filled
from the defaults, so the four-key invariant fails. -/
theorem session_init_no_per_key_filling :
    sessionInit (.stores (.obj [("planner", .str "only-planner")])) =
      .ok (.obj [("planner", .str "only-planner")]) ∧
    Json.hasKey (.obj [("planner", .str "only-planner")]) "tasks" = false :=
  ⟨rfl, rfl⟩

/-- Claim C5 as amended: defaulting is all-or-nothing — a falsy (empty)
loaded document is replaced by the entire hardcoded default set, which does
carry all four keys, while a truthy (non-empty) document is used verbatim,
so keys it lacks stay missing. -/
theorem session_defaulting_all_or_nothing (config : Json) :
    initPrompts config = (if config.truthy then config else defaultPrompts) ∧
    (config.truthy = false →
      ((initPrompts config).hasKey "planner" = true ∧
       (initPrompts config).hasKey "writer" = true ∧
       (initPrompts config).hasKey "editor" = true ∧
       (initPrompts config).hasKey "tasks" = true)) := by
  refine ⟨rfl, fun hfalse => ?_⟩
  simp [initPrompts, pyOr, hfalse]
  decide

/-- Witness for C5 at the empty loaded document. -/
theorem session_defaulting_all_or_nothing_witness :
    (Json.obj []).truthy = false ∧
    (initPrompts (.obj [])).hasKey "tasks" = true :=
  ⟨rfl, ((session_defaulting_all_or_nothing (.obj [])).2 rfl).2.2.2⟩

/-- Counterexample to C4: with the default prompts and transcript `"T"`,
the plan task's description is the configured plan text, a `": "` separator
(from the f-string at line 136) and the transcript — not the plan text
directly concatenated with the transcript. -/
theorem plan_description_not_plain_concat :
    planDescOf (buildCrewFromSession defaultPrompts "T" 1) =
      some ("Plan content for the topic" ++ ": " ++ "T") ∧
    ("Plan content for the topic" ++ ": " ++ "T" : String) ≠
      "Plan content for the topic" ++ "T" := by
  refine ⟨rfl, ?_⟩
  decide

/-- Claim C4 as amended: for every well-formed prompt set and transcript,
the plan task's description is the configured plan text followed by `": "`
and the full transcript (hence it contains the transcript as a literal
substring), the write and edit task descriptions are the configured texts
unchanged, and with a stub engine that deterministically returns
`"ARTICLE"` the displayed result is exactly `"ARTICLE"`. -/
theorem pipeline_descriptions_and_result (P : PromptSetR) (T : String)
    (t : ℚ) (bytes : List Nat) (fs : FileState)
    (h : decodeUtf8 bytes = some T) :
    (buildCrewFromSession (jsonOfPromptSet P) T t).map
        (fun c => c.tasks.map Task.description) =
      .ok [P.tasks.plan ++ ": " ++ T, P.tasks.write, P.tasks.edit] ∧
    (∃ pre, P.tasks.plan ++ ": " ++ T = pre ++ T) ∧
    (generateHandler (some bytes) (jsonOfPromptSet P) t .success
        (fun _ => .returns "ARTICLE") fs).events =
      [ .successMsg "API connection successful!"
      , .successMsg "Research article generated successfully!"
      , .markdown "ARTICLE" ] := by
  refine ⟨rfl, ⟨P.tasks.plan ++ ": ", rfl⟩, ?_⟩
  obtain ⟨c, hb⟩ : ∃ c, buildCrewFromSession (jsonOfPromptSet P) T t = .ok c :=
    ⟨_, rfl⟩
  simp [generateHandler, h, hb]

/-- Witness for C4 at the default prompt set and the one-byte transcript
`"T"`. -/
theorem pipeline_descriptions_and_result_witness :
    (buildCrewFromSession (jsonOfPromptSet defaultPromptSetR) "T" 1).map
        (fun c => c.tasks.map Task.description) =
      .ok [ defaultPromptSetR.tasks.plan ++ ": " ++ "T"
          , defaultPromptSetR.tasks.write, defaultPromptSetR.tasks.edit ] ∧
    (generateHandler (some [0x54]) (jsonOfPromptSet defaultPromptSetR) 1
        .success (fun _ => .returns "ARTICLE") .absent).events =
      [ .successMsg "API connection successful!"
      , .successMsg "Research article generated successfully!"
      , .markdown "ARTICLE" ] :=
  ⟨(pipeline_descriptions_and_result defaultPromptSetR "T" 1 [0x54] .absent
      (by decide)).1,
   (pipeline_descriptions_and_result defaultPromptSetR "T" 1 [0x54] .absent
      (by decide)).2.2⟩

/-- Counterexample to C7: a probe failure that carries no HTTP response (a
connection-level `RequestException`, whose `response` attribute `requests`
sets to `None`) is not reported with status code and body: only the
API-error message is shown, and the reporting code itself then raises an
`AttributeError` (from `e.response.status_code` on `None`) that escapes the
handler uncaught. -/
theorem probe_failure_without_response_no_status :
    generateHandler (some [0x54]) defaultPrompts 1
        (.reqError "Connection refused" none)
        (fun _ => .returns "ARTICLE") .absent =
      { events := [.errorMsg ("API Error: " ++ "Connection refused")],
        netCalls := [.probe], fileState := .absent,
        uncaught := some .attributeError } ∧
    statusCodeReported [.errorMsg ("API Error: " ++ "Connection refused")] = false := by
  refine ⟨rfl, ?_⟩
  decide

/-- Claim C7 as amended: every probe failure enters the `RequestException`
branch (its message carries the `API Error:` prefix, distinct from the
generic branch's `An error occurred:`), the pipeline is never reached (the
only outbound call is the probe itself) and the persisted file is
untouched.  When the exception carries an HTTP response, its status code
and body are echoed and the handler finishes normally; when it does not,
`requests` has set the `response` attribute to `None`, so the reporting
code itself raises an `AttributeError` that escapes both `except` branches
uncaught, after only the API-error message was shown. -/
theorem probe_failure_branch (msg : String) (response : Option HttpResponse)
    (bytes : List Nat) (T : String) (prompts : Json) (t : ℚ)
    (engine : Crew → EngineOutcome) (fs : FileState)
    (h : decodeUtf8 bytes = some T) :
    generateHandler (some bytes) prompts t (.reqError msg response) engine fs =
      { events := (reqErrorReport msg response).1, netCalls := [.probe],
        fileState := fs, uncaught := (reqErrorReport msg response).2 } ∧
    (∀ r, response = some r →
      reqErrorReport msg response =
        ([ .errorMsg ("API Error: " ++ msg)
         , .errorMsg ("Response Status Code: " ++ toString r.status)
         , .errorMsg ("Response Content: " ++ r.body) ], none)) ∧
    (response = none →
      reqErrorReport msg response =
        ([.errorMsg ("API Error: " ++ msg)], some .attributeError)) := by
  refine ⟨by simp [generateHandler, h], fun r hr => ?_, fun hn => ?_⟩
  · subst hr; rfl
  · subst hn; rfl

/-- Witness for C7 at a probe failure with a 404 response. -/
theorem probe_failure_branch_witness :
    generateHandler (some [0x54]) defaultPrompts 1
        (.reqError "404 Client Error" (some { status := 404, body := "Not Found" }))
        (fun _ => .returns "ARTICLE") .absent =
      { events := (reqErrorReport "404 Client Error"
          (some { status := 404, body := "Not Found" })).1,
        netCalls := [.probe], fileState := .absent,
        uncaught := (reqErrorReport "404 Client Error"
          (some { status := 404, body := "Not Found" })).2 } :=
  (probe_failure_branch "404 Client Error"
    (some { status := 404, body := "Not Found" }) [0x54] "T" defaultPrompts 1
    (fun _ => .returns "ARTICLE") .absent (by decide)).1

/-- Claim C8: no path of the generation handler — missing input, decode
failure, probe failure, construction failure, engine failure or success —
writes the persisted config file; only the explicit save action calls
`save_config`. -/
theorem generation_never_persists (uploaded : Option (List Nat))
    (prompts : Json) (t : ℚ) (probe : ProbeOutcome)
    (engine : Crew → EngineOutcome) (fs : FileState) :
    (generateHandler uploaded prompts t probe engine fs).fileState = fs ∧
    (saveConfigAction prompts fs).1 = save_config prompts fs := by
  refine ⟨?_, rfl⟩
  rcases uploaded with _ | bytes
  · rfl
  · rcases hdec : decodeUtf8 bytes with _ | transcripts
    · simp [generateHandler, hdec]
    · rcases probe with _ | ⟨m, resp⟩
      · rcases hbuild : buildCrewFromSession prompts transcripts t with e | crew
        · simp [generateHandler, hdec, hbuild]
        · rcases hengine : engine crew with a | ⟨m, tr⟩ <;>
            simp [generateHandler, hdec, hbuild, hengine]
      · simp [generateHandler, hdec]

/-- Claim C9: for every well-formed prompt set and temperature, each of the
three constructed agents carries exactly its role's `role`, `goal` and
`backstory` strings, the shared temperature, delegation disabled (and
`verbose` set). -/
theorem agent_construction_fields (P : PromptSetR) (t : ℚ) :
    buildAgent (jsonOfPromptSet P) "planner" t =
      .ok { role := P.planner.role, goal := P.planner.goal,
            backstory := P.planner.backstory, allow_delegation := false,
            verbose := true, temperature := t } ∧
    buildAgent (jsonOfPromptSet P) "writer" t =
      .ok { role := P.writer.role, goal := P.writer.goal,
            backstory := P.writer.backstory, allow_delegation := false,
            verbose := true, temperature := t } ∧
    buildAgent (jsonOfPromptSet P) "editor" t =
      .ok { role := P.editor.role, goal := P.editor.goal,
            backstory := P.editor.backstory, allow_delegation := false,
            verbose := true, temperature := t } :=
  ⟨rfl, rfl, rfl⟩

/-- Witness for C10 at the single invalid byte `0xFF`. -/
theorem invalid_utf8_escapes_handler_witness :
    generateHandler (some [0xFF]) defaultPrompts 1 .success
        (fun _ => .returns "ARTICLE") .absent =
      { events := [], netCalls := [], fileState := .absent,
        uncaught := some .unicodeDecodeError } :=
  invalid_utf8_escapes_handler [0xFF] defaultPrompts 1 .success
    (fun _ => .returns "ARTICLE") .absent (by decide)

end ArticleGenerator
